import Mathlib

/-!
Verification of the gp-code-server-test browser test harness.

The repository holds two near-duplicate entry points:
  * `src/index.ts`  — the refined variant,
  * `lib/index.ts`  — the earlier variant.

Both spawn (or attach to) a code server, open a headless browser page on a
URL derived from the server endpoint, install diagnostics subscriptions and
two in-page entry points (`codeAutomationLog`, `codeAutomationExit`), and
relay the in-page completion code as the process exit code.

This development shallowly embeds the pure data transformations (URL and
query construction, node `path.extname`, the readiness-line regex scan,
cookie normalization) and models the effectful orchestration (session setup
order, teardown, signal handlers, the top-level launch flow) as explicit
traces of steps, each transcribed from the TypeScript source.
-/

namespace GpTest

/-! ## Definitions -/

/-! ### Generic character-list helpers -/

/-- Split a character list at every separator selected by `p`; the
separators are dropped, empty segments are kept (mirrors JavaScript
`String.split`). -/
def splitWhen (p : Char → Bool) : List Char → List (List Char)
  | [] => [[]]
  | x :: xs =>
    let r := splitWhen p xs
    if p x then [] :: r else (x :: r.headI) :: r.tail

/-! ### Embedding of node `path.extname` (posix)

The call `path.extname(p)` returns the part of the basename of `p` from its
last dot on, except that a dot which is the first character of the basename
yields the empty extension, as does the special basename `..`. -/

/-- Characters of the basename: everything after the last slash. -/
def basenameChars (l : List Char) : List Char :=
  (l.reverse.takeWhile (fun c => c ≠ '/')).reverse

/-- Node `path.extname` on character lists. -/
def extnameChars (l : List Char) : List Char :=
  let b := basenameChars l
  if b = ['.', '.'] then []
  else
    let e := b.reverse.takeWhile (fun c => c ≠ '.')
    if e.length + 1 ≤ b.length then
      if e.length + 1 = b.length then [] else '.' :: e.reverse
    else []

/-- Node `path.extname` on strings. -/
def extname (s : String) : String := ⟨extnameChars s.data⟩

/-! ### Navigation URL construction

In `src/index.ts` (lines 92–102) the branch condition is
`path.extname(testWorkspacePath) === '.code-workspace'` and the two query
parameters are appended to `endpoint.href` with the separator `&`.

In `lib/index.ts` (lines 69–79) the branch condition is `path.extname` of
the formatted `vscode-remote` URI and the first query parameter is
introduced with `?`. -/

/-- Refined variant: the navigation URL built in `runTestsInBrowser`. -/
def mkNavUrlSrc (href workspacePath payloadParam : String) : String :=
  if extname workspacePath = ".code-workspace" then
    href ++ "&workspace=" ++ workspacePath ++ "&payload=" ++ payloadParam
  else
    href ++ "&folder=" ++ workspacePath ++ "&payload=" ++ payloadParam

/-- Earlier variant: the navigation URL built in `runTestsInBrowser`. -/
def mkNavUrlLib (href workspaceUri payloadParam : String) : String :=
  if extname workspaceUri = ".code-workspace" then
    href ++ "?workspace=" ++ workspaceUri ++ "&payload=" ++ payloadParam
  else
    href ++ "?folder=" ++ workspaceUri ++ "&payload=" ++ payloadParam

/-- Refined variant's payload parameter (line 96 of `src/index.ts`). -/
def payloadParamSrc (testExtensionUri testFilesUri : String) : String :=
  "[[\"extensionDevelopmentPath\",\"" ++ testExtensionUri ++
    "\"],[\"extensionTestsPath\",\"" ++ testFilesUri ++
    "\"],[\"enableProposedApi\",\"\"],[\"skipWelcome\",\"true\"]]"

/-- Result of `url.format` with `protocol = 'vscode-remote'` and
`slashes = true`: the `vscode-remote://host/path` URI. -/
def formatVscodeRemoteUri (host pathname : String) : String :=
  "vscode-remote://" ++ host ++ pathname

/-- Test for a query separator of the navigation URL: `&` or `?`. -/
def isQuerySep (c : Char) : Bool := c = '&' || c = '?'

/-- Key of one query segment: the characters before its first `=`. -/
def keyOf (l : List Char) : List Char := l.takeWhile (fun c => c ≠ '=')

/-- Query keys of a URL string: split at every `&`/`?`, drop the leading
non-query part, and keep each segment's key. -/
def queryKeys (s : String) : List (List Char) :=
  ((splitWhen isQuerySep s.data).tail).map keyOf

/-! ### Server readiness scan and endpoint parsing

Both variants of `launchServer` subscribe to the spawned process's stdout
and, per chunk, run `data.toString('ascii').match(/Web UI available at (.+)/)`;
on a match they call the promise's resolver with
`{ endpoint: url.parse(matches[1]), server: serverProcess }`. A promise
resolves only on the first such call. -/

/-- Literal part of the readiness regex `/Web UI available at (.+)/`. -/
def webUIPat : List Char := "Web UI available at ".data

/-- JavaScript `.` (without the dotall flag) matches neither `\n` nor `\r`. -/
def notLineTerm (c : Char) : Bool := c ≠ '\n' && c ≠ '\r'

/-- First-match semantics of `text.match(/Web UI available at (.+)/)`: scan
left to right; at the first position where the literal prefix matches and at
least one non-line-terminator character follows, capture greedily up to the
end of the line. -/
def regexMatchWebUI : List Char → Option (List Char)
  | [] => none
  | x :: xs =>
    if webUIPat.isPrefixOf (x :: xs) then
      let cap := ((x :: xs).drop webUIPat.length).takeWhile notLineTerm
      if cap.isEmpty then regexMatchWebUI xs else some cap
    else regexMatchWebUI xs

/-- Captured group of the readiness regex on a stdout chunk, if any. -/
def matchWebUI (chunk : String) : Option String :=
  (regexMatchWebUI chunk.data).map (fun l => ⟨l⟩)

/-- Scan for the first occurrence of `pat`; return what follows it. -/
def afterFirstHit (pat : List Char) : List Char → Option (List Char)
  | [] => none
  | x :: xs =>
    if pat.isPrefixOf (x :: xs) then some ((x :: xs).drop pat.length)
    else afterFirstHit pat xs

/-- Host extraction of node `url.parse`: the authority between the first
`//` and the next `/`, `?` or `#` (absent when there is no `//`). -/
def urlParseHost (u : String) : Option String :=
  (afterFirstHit "//".data u.data).map
    (fun r => ⟨r.takeWhile (fun c => c ≠ '/' && c ≠ '?' && c ≠ '#')⟩)

/-- Fields of node `url.parse`'s result that the harness reads. -/
structure Endpoint where
  host : Option String
  href : String
deriving DecidableEq

/-- Model of `url.parse` restricted to the fields the harness uses. -/
def urlParse (u : String) : Endpoint := ⟨urlParseHost u, u⟩

/-- Value the supervisor's promise resolves with: the parsed endpoint
together with the process handle (modelled by its pid). -/
structure ResolvedServer where
  endpoint : Endpoint
  serverPid : Nat
deriving DecidableEq

/-- One `data` event of the spawned server's stdout stream (`src/index.ts`
lines 185–192, `lib/index.ts` lines 155–162): the promise resolves on the
first chunk whose text matches the readiness regex and ignores all data
once resolved. -/
def onStdoutData (pid : Nat) (st : Option ResolvedServer) (chunk : String) :
    Option ResolvedServer :=
  match st with
  | some r => some r
  | none =>
    match matchWebUI chunk with
    | some u => some ⟨urlParse u, pid⟩
    | none => none

/-! ### Auth cookie decoding and normalization -/

/-- A JSON scalar as it can appear in the decoded cookie object. -/
inductive JVal
  | str (s : String)
  | num (n : Int)
  | boolean (b : Bool)
  | null
deriving DecidableEq

/-- Decoded cookie object, the return shape of `getAuthCookie`
(`src/index.ts` lines 32–42). -/
structure Cookie where
  name : String
  value : String
  domain : Option String
  path : Option String
  expires : Option JVal
  httpOnly : Option Bool
  secure : Option Bool
  sameSite : Option JVal
deriving DecidableEq

/-- JavaScript `s.charAt(0).toUpperCase() + s.slice(1)`. -/
def capitalizeFirst (s : String) : String :=
  match s.data with
  | [] => ""
  | c :: cs => ⟨c.toUpper :: cs⟩

/-- Normalization inside `getAuthCookie` (`src/index.ts` lines 47–52) and
inline in `lib/index.ts` lines 36–41: a string-valued `expires` is replaced
by the epoch seconds `+((new Date(s).getTime() / 1000).toFixed(0))` — that
external `Date` computation is the parameter `dateEpochSec` — and a
string-valued `sameSite` has its first character capitalized. -/
def normalizeCookie (dateEpochSec : String → Int) (c : Cookie) : Cookie :=
  let c1 :=
    match c.expires with
    | some (JVal.str s) => { c with expires := some (JVal.num (dateEpochSec s)) }
    | _ => c
  match c1.sameSite with
  | some (JVal.str s) => { c1 with sameSite := some (JVal.str (capitalizeFirst s)) }
  | _ => c1

/-- JavaScript `a || b` on optional strings: the empty string is falsy. -/
def jsOr (a b : Option String) : Option String :=
  match a with
  | some s => if s = "" then b else some s
  | none => b

/-- Model of `getAuthCookie` (`src/index.ts` lines 32–56): choose the
base64 blob from the `authCookie` flag or the `AUTH_COOKIE` environment
variable; when one is present, decode it (the external base64 + JSON
decoding is the parameter `decode`) and normalize. `none` when both sources
are absent or empty. -/
def getAuthCookie (dateEpochSec : String → Int) (decode : String → Cookie)
    (authCookieFlag envAuthCookie : Option String) : Option Cookie :=
  match jsOr authCookieFlag envAuthCookie with
  | some s => if s = "" then none else some (normalizeCookie dateEpochSec (decode s))
  | none => none

/-! ### Browser session setup: operation order -/

/-- One browser/context/page operation of `runTestsInBrowser`. -/
inductive PageOp
  | launchBrowser
  | newContext
  | addCookies (c : Cookie)
  | newPage
  | setViewportSize (w h : Nat)
  | subscribe (event : String)
  | goto (u : String)
  | exposeFn (fn : String)
deriving DecidableEq

/-- Sequence of operations performed by `runTestsInBrowser`, in source
order (`src/index.ts` lines 58–125, `lib/index.ts` lines 29–102; both
variants perform them in the same order): launch, context, optional cookie
injection, page, viewport, the five diagnostics subscriptions, navigation,
and only then the two exposed entry points. -/
def runTestsInBrowser (cookie : Option Cookie) (navUrl : String) : List PageOp :=
  [PageOp.launchBrowser, PageOp.newContext]
  ++ (match cookie with | some c => [PageOp.addCookies c] | none => [])
  ++ [PageOp.newPage, PageOp.setViewportSize 1200 800,
      PageOp.subscribe "pageerror", PageOp.subscribe "crash",
      PageOp.subscribe "response", PageOp.subscribe "console",
      PageOp.subscribe "requestfailed",
      PageOp.goto navUrl,
      PageOp.exposeFn "codeAutomationLog", PageOp.exposeFn "codeAutomationExit"]

def isGoto : PageOp → Bool
  | PageOp.goto _ => true
  | _ => false

def isExposeFn : PageOp → Bool
  | PageOp.exposeFn _ => true
  | _ => false

def isSubscribe : PageOp → Bool
  | PageOp.subscribe _ => true
  | _ => false

def isAddCookies : PageOp → Bool
  | PageOp.addCookies _ => true
  | _ => false

/-- Property claimed by C3, as a predicate on traces: no entry-point
installation occurs at or after the first navigation. -/
def entryPointsBeforeNav (t : List PageOp) : Bool :=
  !((t.dropWhile (fun op => !isGoto op)).any isExposeFn)

/-! ### Bridge exit entry point: teardown order -/

/-- One step of the `codeAutomationExit` teardown. -/
inductive TeardownStep
  | closeBrowser
  | logCloseError
  | killTree (pid : Nat)
  | logKillError (pid : Nat)
  | exitProcess (code : Int)
deriving DecidableEq

/-- Trace of `codeAutomationExit(code)` (`src/index.ts` lines 108–124,
`lib/index.ts` lines 85–101): try closing the browser, logging a failure
instead of throwing; if a server handle exists, try killing its process
tree, logging a failure instead of throwing; finally exit the outer process
with the received code. The Boolean flags say whether the close and the
kill attempts fail. -/
def codeAutomationExit (serverPid : Option Nat) (closeFails killFails : Bool)
    (code : Int) : List TeardownStep :=
  [TeardownStep.closeBrowser]
  ++ (if closeFails then [TeardownStep.logCloseError] else [])
  ++ (match serverPid with
      | some pid =>
        [TeardownStep.killTree pid]
        ++ (if killFails then [TeardownStep.logKillError pid] else [])
      | none => [])
  ++ [TeardownStep.exitProcess code]

/-- Exit codes a teardown trace passes to `process.exit`, in order. -/
def exitCodesOf (t : List TeardownStep) : List Int :=
  t.filterMap (fun s => match s with | TeardownStep.exitProcess c => some c | _ => none)

def isKillTree : TeardownStep → Bool
  | TeardownStep.killTree _ => true
  | _ => false

/-! ### Supervisor signal handlers and top-level launch flow -/

/-- One step of the supervising process's own flow. -/
inductive HostStep
  | mkTmpDir
  | spawnServer (location : String) (args : List String)
  | killChild
  | logError (msg : String)
  | exitProcess (code : Int)
deriving DecidableEq

/-- Refined SIGINT handler (`src/index.ts` lines 176–179): kill the child,
then exit with `128 + 2`. -/
def sigintHandlerSrc : List HostStep :=
  [HostStep.killChild, HostStep.exitProcess (128 + 2)]

/-- Refined SIGTERM handler (`src/index.ts` lines 180–183): kill the child,
then exit with `128 + 15`. -/
def sigtermHandlerSrc : List HostStep :=
  [HostStep.killChild, HostStep.exitProcess (128 + 15)]

/-- Earlier SIGINT handler (`lib/index.ts` line 152): only kill the child. -/
def sigintHandlerLib : List HostStep := [HostStep.killChild]

/-- Earlier SIGTERM handler (`lib/index.ts` line 153): only kill the child. -/
def sigtermHandlerLib : List HostStep := [HostStep.killChild]

/-- First exit code a host trace passes to `process.exit`, if any. -/
def exitCodeOfHost (t : List HostStep) : Option Int :=
  (t.filterMap
    (fun s => match s with | HostStep.exitProcess c => some c | _ => none)).head?

/-- Truthiness of an optional string flag or environment variable, as JS
`if (x)` sees it: absent and empty are falsy. -/
def truthyStr : Option String → Bool
  | none => false
  | some s => !(s == "")

/-- Model of `launchServer` up to the spawn (`src/index.ts` lines 141–168):
it fails fast with the configuration error when `VSCODE_REMOTE_SERVER_PATH`
is unset, before creating the temp directory or spawning anything;
otherwise it creates the temp data directory and spawns the server process.
The server location and argument list are computed from the environment
(via an external `require` of `product.json`), passed here as parameters. -/
def launchServerFlow (serverPathEnv : Option String) (location : String)
    (args : List String) : List HostStep × Except String Unit :=
  if truthyStr serverPathEnv = false then
    ([], Except.error "VSCODE_REMOTE_SERVER_PATH env variable not provided")
  else
    ([HostStep.mkTmpDir, HostStep.spawnServer location args], Except.ok ())

/-- Top-level flow (`src/index.ts` lines 195–210): with a truthy `endpoint`
flag the launch is skipped entirely; otherwise `launchServer` runs, and a
rejection is handled by the top-level error handler, which logs the error
and exits with code 1. -/
def topLevelFlow (endpointFlag serverPathEnv : Option String) (location : String)
    (args : List String) : List HostStep × Option Int :=
  if truthyStr endpointFlag then ([], none)
  else
    match launchServerFlow serverPathEnv location args with
    | (t, Except.ok _) => (t, none)
    | (t, Except.error msg) =>
      (t ++ [HostStep.logError msg, HostStep.exitProcess 1], some 1)

/-! ### Diagnostics relay: console message forwarding -/

/-- A page-side handle; `jsonValue()` resolves it to its concrete value. -/
structure JSHandle where
  val : JVal
deriving DecidableEq

/-- Resolution `arg.jsonValue()` of a handle to its concrete JSON value. -/
def jsonValue (h : JSHandle) : JVal := h.val

/-- An effect the console handler performs on the outer console. -/
inductive ConsoleEffect
  | forward (method : String) (text : String) (args : List JVal)
  | errorLog (note : String)
deriving DecidableEq

/-- Which properties of the node `console` object are functions — the
truthiness test `console[type]` in `consoleLogFn`. -/
def consoleHasMethod (t : String) : Bool :=
  t ∈ ["log", "info", "error", "warn", "debug", "trace", "dir", "dirxml",
       "table", "group", "groupCollapsed", "groupEnd", "count", "assert",
       "profile", "profileEnd", "time", "timeEnd", "timeLog", "clear"]

/-- Model of `consoleLogFn` (both variants): the console method a message
type is forwarded to — the same-named method when it exists, `warn` for
`warning`, `log` otherwise. -/
def consoleLogFn (msgType : String) : String :=
  if consoleHasMethod msgType then msgType
  else if msgType == "warning" then "warn"
  else "log"

/-- Refined variant's page `console` handler (`src/index.ts` lines 76–84):
forward only `error`/`warning` messages, resolving every argument to its
JSON value first; a failure while forwarding is caught and reported as
`Error logging console`, never rethrown. -/
def onConsoleMessageSrc (msgType text : String) (args : List JSHandle)
    (forwardFails : Bool) : List ConsoleEffect :=
  if msgType == "error" || msgType == "warning" then
    if forwardFails then [ConsoleEffect.errorLog "Error logging console"]
    else [ConsoleEffect.forward (consoleLogFn msgType) text (args.map jsonValue)]
  else []

/-- Earlier variant's handler (`lib/index.ts` lines 55–61): forward every
message regardless of level, with the same argument resolution and the same
catch. -/
def onConsoleMessageLib (msgType text : String) (args : List JSHandle)
    (forwardFails : Bool) : List ConsoleEffect :=
  if forwardFails then [ConsoleEffect.errorLog "Error logging console"]
  else [ConsoleEffect.forward (consoleLogFn msgType) text (args.map jsonValue)]

def isForwardEffect : ConsoleEffect → Bool
  | ConsoleEffect.forward _ _ _ => true
  | _ => false

/-! ## Helper lemmas -/

theorem splitWhen_ne_nil (p : Char → Bool) (l : List Char) : splitWhen p l ≠ [] := by
  cases l with
  | nil => simp [splitWhen]
  | cons x xs =>
    simp only [splitWhen]
    split <;> simp

theorem splitWhen_of_no_sep (p : Char → Bool) (l : List Char)
    (h : ∀ c ∈ l, p c = false) : splitWhen p l = [l] := by
  induction l with
  | nil => rfl
  | cons x xs ih =>
    have hx : p x = false := h x (List.mem_cons_self x xs)
    have hxs : ∀ c ∈ xs, p c = false := fun c hc => h c (List.mem_cons_of_mem x hc)
    simp [splitWhen, hx, ih hxs]

theorem splitWhen_append_sep (p : Char → Bool) (a b : List Char) (sep : Char)
    (hsep : p sep = true) (ha : ∀ c ∈ a, p c = false) :
    splitWhen p (a ++ sep :: b) = a :: splitWhen p b := by
  induction a with
  | nil => simp [splitWhen, hsep]
  | cons x xs ih =>
    have hx : p x = false := ha x (List.mem_cons_self x xs)
    have hxs : ∀ c ∈ xs, p c = false := fun c hc => ha c (List.mem_cons_of_mem x hc)
    simp [splitWhen, hx, ih hxs]

theorem takeWhile_append_stop (p : Char → Bool) (a b : List Char) (sep : Char)
    (hsep : p sep = false) (ha : ∀ c ∈ a, p c = true) :
    (a ++ sep :: b).takeWhile p = a := by
  induction a with
  | nil => simp [List.takeWhile_cons, hsep]
  | cons x xs ih =>
    have hx : p x = true := ha x (List.mem_cons_self x xs)
    have hxs : ∀ c ∈ xs, p c = true := fun c hc => ha c (List.mem_cons_of_mem x hc)
    simp [List.takeWhile_cons, hx, ih hxs]

/-- Sanity checks of the `path.extname` embedding against node's documented
behaviour. -/
theorem extname_sanity :
    extname "/w/a.code-workspace" = ".code-workspace"
    ∧ extname "/w/folder" = ""
    ∧ extname "/w/.hidden" = ""
    ∧ extname "/w/a." = "." := by
  decide

/-- Keys of a URL of the shape `href` + sep + `key1=v1` + `&` + `key2=v2`,
when neither the href, the values, nor the keys contain a separator and the
keys contain no `=`. -/
theorem queryKeys_two (href : String) (v1 v2 key1 key2 : List Char) (sep : Char)
    (hsep : isQuerySep sep = true)
    (hh : ∀ c ∈ href.data, isQuerySep c = false)
    (h1 : ∀ c ∈ v1, isQuerySep c = false)
    (h2 : ∀ c ∈ v2, isQuerySep c = false)
    (hk1s : ∀ c ∈ key1, isQuerySep c = false) (hk1e : '=' ∉ key1)
    (hk2s : ∀ c ∈ key2, isQuerySep c = false) (hk2e : '=' ∉ key2) :
    ((splitWhen isQuerySep
        (href.data ++ sep :: ((key1 ++ '=' :: v1) ++ '&' :: (key2 ++ '=' :: v2)))).tail).map keyOf
      = [key1, key2] := by
  have hseg1 : ∀ c ∈ key1 ++ '=' :: v1, isQuerySep c = false := by
    intro c hc
    rcases List.mem_append.mp hc with h | h
    · exact hk1s c h
    · rcases List.mem_cons.mp h with rfl | h
      · decide
      · exact h1 c h
  have hseg2 : ∀ c ∈ key2 ++ '=' :: v2, isQuerySep c = false := by
    intro c hc
    rcases List.mem_append.mp hc with h | h
    · exact hk2s c h
    · rcases List.mem_cons.mp h with rfl | h
      · decide
      · exact h2 c h
  rw [splitWhen_append_sep _ _ _ _ hsep hh,
    splitWhen_append_sep _ _ _ '&' (by decide) hseg1,
    splitWhen_of_no_sep _ _ hseg2]
  have hkey : ∀ (k v : List Char), '=' ∉ k → keyOf (k ++ '=' :: v) = k := by
    intro k v hk
    refine takeWhile_append_stop _ _ _ _ (by decide) ?_
    intro c hc
    exact decide_eq_true (fun h : c = '=' => hk (h ▸ hc))
  simp [hkey key1 v1 hk1e, hkey key2 v2 hk2e]

/-- Query keys of the refined variant's navigation URL, for inputs free of
`&` and `?`. -/
theorem queryKeys_mkNavUrlSrc (href ws payload : String)
    (hh : ∀ c ∈ href.data, isQuerySep c = false)
    (hw : ∀ c ∈ ws.data, isQuerySep c = false)
    (hp : ∀ c ∈ payload.data, isQuerySep c = false) :
    queryKeys (mkNavUrlSrc href ws payload)
      = if extname ws = ".code-workspace" then ["workspace".data, "payload".data]
        else ["folder".data, "payload".data] := by
  unfold mkNavUrlSrc queryKeys
  split
  · have hdata : (href ++ "&workspace=" ++ ws ++ "&payload=" ++ payload).data
        = href.data ++ '&' ::
            (("workspace".data ++ '=' :: ws.data) ++ '&' :: ("payload".data ++ '=' :: payload.data)) := by
      simp only [String.data_append, List.append_assoc]
      rfl
    rw [hdata]
    exact queryKeys_two href ws.data payload.data "workspace".data "payload".data '&'
      (by decide) hh hw hp (by decide) (by decide) (by decide) (by decide)
  · have hdata : (href ++ "&folder=" ++ ws ++ "&payload=" ++ payload).data
        = href.data ++ '&' ::
            (("folder".data ++ '=' :: ws.data) ++ '&' :: ("payload".data ++ '=' :: payload.data)) := by
      simp only [String.data_append, List.append_assoc]
      rfl
    rw [hdata]
    exact queryKeys_two href ws.data payload.data "folder".data "payload".data '&'
      (by decide) hh hw hp (by decide) (by decide) (by decide) (by decide)

/-- Query keys of the earlier variant's navigation URL, for inputs free of
`&` and `?`. -/
theorem queryKeys_mkNavUrlLib (href ws payload : String)
    (hh : ∀ c ∈ href.data, isQuerySep c = false)
    (hw : ∀ c ∈ ws.data, isQuerySep c = false)
    (hp : ∀ c ∈ payload.data, isQuerySep c = false) :
    queryKeys (mkNavUrlLib href ws payload)
      = if extname ws = ".code-workspace" then ["workspace".data, "payload".data]
        else ["folder".data, "payload".data] := by
  unfold mkNavUrlLib queryKeys
  split
  · have hdata : (href ++ "?workspace=" ++ ws ++ "&payload=" ++ payload).data
        = href.data ++ '?' ::
            (("workspace".data ++ '=' :: ws.data) ++ '&' :: ("payload".data ++ '=' :: payload.data)) := by
      simp only [String.data_append, List.append_assoc]
      rfl
    rw [hdata]
    exact queryKeys_two href ws.data payload.data "workspace".data "payload".data '?'
      (by decide) hh hw hp (by decide) (by decide) (by decide) (by decide)
  · have hdata : (href ++ "?folder=" ++ ws ++ "&payload=" ++ payload).data
        = href.data ++ '?' ::
            (("folder".data ++ '=' :: ws.data) ++ '&' :: ("payload".data ++ '=' :: payload.data)) := by
      simp only [String.data_append, List.append_assoc]
      rfl
    rw [hdata]
    exact queryKeys_two href ws.data payload.data "folder".data "payload".data '?'
      (by decide) hh hw hp (by decide) (by decide) (by decide) (by decide)

/-! ## Claims -/

/-- C1: invoking the exit entry point with code `code` first attempts the
browser close, then — when a server handle exists — attempts the process
tree kill, then exits with exactly `code`; each step is attempted whether
or not the previous one failed, failures are only logged, and no kill is
attempted without a handle. -/
theorem c1_exit_teardown (serverPid : Option Nat) (closeFails killFails : Bool)
    (code : Int) :
    (codeAutomationExit serverPid closeFails killFails code).head?
      = some TeardownStep.closeBrowser
    ∧ exitCodesOf (codeAutomationExit serverPid closeFails killFails code) = [code]
    ∧ (codeAutomationExit serverPid closeFails killFails code).getLast?
      = some (TeardownStep.exitProcess code)
    ∧ (∀ pid, ∃ a b, codeAutomationExit (some pid) closeFails killFails code
        = TeardownStep.closeBrowser ::
            (a ++ TeardownStep.killTree pid :: b) ++ [TeardownStep.exitProcess code])
    ∧ (∃ a, codeAutomationExit none closeFails killFails code
        = TeardownStep.closeBrowser :: a ++ [TeardownStep.exitProcess code])
    ∧ (codeAutomationExit none closeFails killFails code).any isKillTree = false := by
  refine ⟨?_, ?_, ?_, ?_, ?_, ?_⟩
  · rcases serverPid with _ | pid <;> cases closeFails <;> cases killFails <;> rfl
  · rcases serverPid with _ | pid <;> cases closeFails <;> cases killFails <;> rfl
  · rcases serverPid with _ | pid <;> cases closeFails <;> cases killFails <;> rfl
  · intro pid
    cases closeFails <;> cases killFails
    · exact ⟨[], [], rfl⟩
    · exact ⟨[], [TeardownStep.logKillError pid], rfl⟩
    · exact ⟨[TeardownStep.logCloseError], [], rfl⟩
    · exact ⟨[TeardownStep.logCloseError], [TeardownStep.logKillError pid], rfl⟩
  · cases closeFails
    · exact ⟨[], rfl⟩
    · exact ⟨[TeardownStep.logCloseError], rfl⟩
  · cases closeFails <;> rfl

/-- C2 counterexample: in the earlier variant, a run with a launched server
that receives SIGINT (or SIGTERM) kills the child but the handler sets no
exit code at all — the outer process does not terminate with 130 (or 143),
refuting the claim for every run. -/
theorem c2_counterexample :
    HostStep.killChild ∈ sigintHandlerLib ∧ exitCodeOfHost sigintHandlerLib = none
    ∧ HostStep.killChild ∈ sigtermHandlerLib ∧ exitCodeOfHost sigtermHandlerLib = none := by
  decide

/-- C2 amended: in the refined variant, SIGINT kills the spawned child and
then terminates the outer process with exit code 130 = 128 + 2, and SIGTERM
kills the child and terminates with 143 = 128 + 15; in the earlier variant
the handlers kill the child but set no exit code. -/
theorem c2_signal_handlers :
    sigintHandlerSrc = [HostStep.killChild, HostStep.exitProcess 130]
    ∧ exitCodeOfHost sigintHandlerSrc = some 130
    ∧ sigtermHandlerSrc = [HostStep.killChild, HostStep.exitProcess 143]
    ∧ exitCodeOfHost sigtermHandlerSrc = some 143
    ∧ sigintHandlerLib = [HostStep.killChild]
    ∧ sigtermHandlerLib = [HostStep.killChild] := by
  decide

/-- C3 counterexample: in the trace of a concrete run (no cookie, endpoint
href `http://127.0.0.1:9999/`), navigation occurs before the two entry
points are installed, so they are not installed before navigation begins. -/
theorem c3_counterexample :
    entryPointsBeforeNav
      (runTestsInBrowser none "http://127.0.0.1:9999/&folder=/w/p&payload=[]") = false := rfl

/-- C3 amended: in every run of either variant, all five Diagnostics Relay
subscriptions are installed before navigation begins, while the two Bridge
entry points are installed only after navigation. -/
theorem c3_subscribe_before_nav_expose_after (cookie : Option Cookie) (navUrl : String) :
    ((runTestsInBrowser cookie navUrl).takeWhile (fun op => !isGoto op)).filter isSubscribe
      = [PageOp.subscribe "pageerror", PageOp.subscribe "crash", PageOp.subscribe "response",
         PageOp.subscribe "console", PageOp.subscribe "requestfailed"]
    ∧ ((runTestsInBrowser cookie navUrl).takeWhile (fun op => !isGoto op)).any isExposeFn = false
    ∧ ((runTestsInBrowser cookie navUrl).dropWhile (fun op => !isGoto op)).filter isExposeFn
      = [PageOp.exposeFn "codeAutomationLog", PageOp.exposeFn "codeAutomationExit"] := by
  cases cookie <;> exact ⟨rfl, rfl, rfl⟩

/-- C4: with `VSCODE_REMOTE_SERVER_PATH` unset (or empty) and no `endpoint`
flag, the run logs the descriptive configuration error naming the variable
and exits with code 1, and no child process is ever spawned before that
failure. -/
theorem c4_missing_env_fails_without_spawn (endpointFlag serverPathEnv : Option String)
    (location : String) (args : List String)
    (he : truthyStr endpointFlag = false) (hs : truthyStr serverPathEnv = false) :
    (∀ l a, HostStep.spawnServer l a ∉ (topLevelFlow endpointFlag serverPathEnv location args).1)
    ∧ HostStep.logError "VSCODE_REMOTE_SERVER_PATH env variable not provided"
        ∈ (topLevelFlow endpointFlag serverPathEnv location args).1
    ∧ (topLevelFlow endpointFlag serverPathEnv location args).2 = some 1 := by
  unfold topLevelFlow launchServerFlow
  simp [he, hs]

/-- Witness for C4 with both sources absent: the error is logged and the
exit code is 1. -/
theorem c4_missing_env_fails_without_spawn_witness :
    HostStep.logError "VSCODE_REMOTE_SERVER_PATH env variable not provided"
      ∈ (topLevelFlow none none "/srv/bin/code-server" []).1
    ∧ (topLevelFlow none none "/srv/bin/code-server" []).2 = some 1 :=
  ⟨(c4_missing_env_fails_without_spawn none none "/srv/bin/code-server" [] rfl rfl).2.1,
   (c4_missing_env_fails_without_spawn none none "/srv/bin/code-server" [] rfl rfl).2.2⟩

/-- C5: for every valid input triple — endpoint href, resolved workspace
path and payload parameter free of the query separators `&`/`?` — the
constructed navigation URL contains exactly one of the query keys `folder=`
/ `workspace=`: `workspace=` exactly when the workspace path's extension is
`.code-workspace`, and `folder=` otherwise; this holds in both variants. -/
theorem c5_exactly_one_workspace_or_folder_key (href ws payload : String)
    (hh : ∀ c ∈ href.data, isQuerySep c = false)
    (hw : ∀ c ∈ ws.data, isQuerySep c = false)
    (hp : ∀ c ∈ payload.data, isQuerySep c = false) :
    (("workspace".data ∈ queryKeys (mkNavUrlSrc href ws payload)
        ∧ "folder".data ∉ queryKeys (mkNavUrlSrc href ws payload))
      ↔ extname ws = ".code-workspace")
    ∧ (("folder".data ∈ queryKeys (mkNavUrlSrc href ws payload)
        ∧ "workspace".data ∉ queryKeys (mkNavUrlSrc href ws payload))
      ↔ ¬ extname ws = ".code-workspace")
    ∧ (("workspace".data ∈ queryKeys (mkNavUrlLib href ws payload)
        ∧ "folder".data ∉ queryKeys (mkNavUrlLib href ws payload))
      ↔ extname ws = ".code-workspace")
    ∧ (("folder".data ∈ queryKeys (mkNavUrlLib href ws payload)
        ∧ "workspace".data ∉ queryKeys (mkNavUrlLib href ws payload))
      ↔ ¬ extname ws = ".code-workspace") := by
  rw [queryKeys_mkNavUrlSrc href ws payload hh hw hp,
    queryKeys_mkNavUrlLib href ws payload hh hw hp]
  by_cases hx : extname ws = ".code-workspace" <;>
    simp only [hx, if_pos, if_neg, not_false_eq_true, not_true_eq_false] <;>
    refine ⟨?_, ?_, ?_, ?_⟩ <;> simp

/-- Witness for C5 at concrete inputs: a `.code-workspace` path yields the
`workspace` key, a plain folder path yields the `folder` key. -/
theorem c5_exactly_one_workspace_or_folder_key_witness :
    "workspace".data ∈ queryKeys (mkNavUrlSrc "http://127.0.0.1:9999/" "/w/a.code-workspace" "[]")
    ∧ "folder".data ∈ queryKeys (mkNavUrlSrc "http://127.0.0.1:9999/" "/w/proj" "[]") :=
  ⟨((c5_exactly_one_workspace_or_folder_key "http://127.0.0.1:9999/" "/w/a.code-workspace" "[]"
      (by decide) (by decide) (by decide)).1.mpr (by decide)).1,
   ((c5_exactly_one_workspace_or_folder_key "http://127.0.0.1:9999/" "/w/proj" "[]"
      (by decide) (by decide) (by decide)).2.1.mpr (by decide)).1⟩

/-- C6: a stdout chunk containing the line
`Web UI available at http://127.0.0.1:9999/` resolves the supervisor's
promise with an endpoint whose host is `127.0.0.1:9999` (the URL after the
fixed prefix, parsed) together with the process handle; and a promise
already resolved is unchanged by later chunks, so resolution happens on the
first match. -/
theorem c6_ready_line_resolves_endpoint (pid : Nat) (rest : String) :
    onStdoutData pid none ("Web UI available at http://127.0.0.1:9999/\n" ++ rest)
      = some ⟨⟨some "127.0.0.1:9999", "http://127.0.0.1:9999/"⟩, pid⟩
    ∧ ∀ (r : ResolvedServer) (chunk : String), onStdoutData pid (some r) chunk = some r :=
  ⟨rfl, fun _ _ => rfl⟩

/-- C7: for every auth cookie supplied via the `authCookie` flag or the
`AUTH_COOKIE` environment variable whose decoded object has a string-valued
`expires` and a string-valued `sameSite`, the cookie injected into the
browser context has `expires` converted to the numeric epoch-seconds value
and `sameSite` with its first character capitalized. -/
theorem c7_cookie_normalized_on_injection (dateEpochSec : String → Int)
    (decode : String → Cookie) (flag env : Option String) (navUrl s d ss : String)
    (hs : jsOr flag env = some s) (hne : ¬ s = "")
    (hexp : (decode s).expires = some (JVal.str d))
    (hss : (decode s).sameSite = some (JVal.str ss)) :
    getAuthCookie dateEpochSec decode flag env
      = some (normalizeCookie dateEpochSec (decode s))
    ∧ (normalizeCookie dateEpochSec (decode s)).expires
      = some (JVal.num (dateEpochSec d))
    ∧ (normalizeCookie dateEpochSec (decode s)).sameSite
      = some (JVal.str (capitalizeFirst ss))
    ∧ PageOp.addCookies (normalizeCookie dateEpochSec (decode s))
      ∈ runTestsInBrowser (getAuthCookie dateEpochSec decode flag env) navUrl := by
  have hget : getAuthCookie dateEpochSec decode flag env
      = some (normalizeCookie dateEpochSec (decode s)) := by
    unfold getAuthCookie
    rw [hs]
    simp [hne]
  refine ⟨hget, ?_, ?_, ?_⟩
  · unfold normalizeCookie
    rw [hexp]
    simp only [hss]
  · unfold normalizeCookie
    rw [hexp]
    simp only [hss]
  · rw [hget]
    simp [runTestsInBrowser]

/-- Witness for C7 at a concrete cookie: a string expiry date becomes the
numeric epoch value and `lax` becomes `Lax`. -/
theorem c7_cookie_normalized_on_injection_witness :
    (normalizeCookie (fun _ => (1700000000 : Int))
        ((fun _ => (⟨"n", "v", none, none, some (JVal.str "2024-01-01"), none, none,
            some (JVal.str "lax")⟩ : Cookie)) "blob")).expires
      = some (JVal.num 1700000000)
    ∧ (normalizeCookie (fun _ => (1700000000 : Int))
        ((fun _ => (⟨"n", "v", none, none, some (JVal.str "2024-01-01"), none, none,
            some (JVal.str "lax")⟩ : Cookie)) "blob")).sameSite
      = some (JVal.str "Lax") :=
  ⟨(c7_cookie_normalized_on_injection (fun _ => (1700000000 : Int))
      (fun _ => ⟨"n", "v", none, none, some (JVal.str "2024-01-01"), none, none,
        some (JVal.str "lax")⟩)
      (some "blob") none "nav" "blob" "2024-01-01" "lax" rfl (by decide) rfl rfl).2.1,
   (c7_cookie_normalized_on_injection (fun _ => (1700000000 : Int))
      (fun _ => ⟨"n", "v", none, none, some (JVal.str "2024-01-01"), none, none,
        some (JVal.str "lax")⟩)
      (some "blob") none "nav" "blob" "2024-01-01" "lax" rfl (by decide) rfl rfl).2.2.1⟩

/-- C8: when neither the `authCookie` flag nor the `AUTH_COOKIE` environment
variable is set, `getAuthCookie` yields no cookie and session setup performs
no `addCookies` call on the browser context. -/
theorem c8_no_cookie_sources_no_injection (dateEpochSec : String → Int)
    (decode : String → Cookie) (navUrl : String) :
    getAuthCookie dateEpochSec decode none none = none
    ∧ (runTestsInBrowser (getAuthCookie dateEpochSec decode none none) navUrl).any
        isAddCookies = false :=
  ⟨rfl, rfl⟩

/-- C9: the refined variant forwards a page console message exactly when its
severity is `error` or `warning`, the earlier variant forwards every
message; in both, every forwarded argument list is the handles resolved to
their concrete JSON values, and a failure while forwarding produces only
the caught `Error logging console` report. -/
theorem c9_console_forwarding (msgType text : String) (args : List JSHandle)
    (forwardFails : Bool) :
    ((onConsoleMessageSrc msgType text args false).any isForwardEffect
      = (msgType == "error" || msgType == "warning"))
    ∧ ((onConsoleMessageLib msgType text args false).any isForwardEffect = true)
    ∧ (∀ m t a, ConsoleEffect.forward m t a ∈ onConsoleMessageSrc msgType text args forwardFails
        → a = args.map jsonValue)
    ∧ (∀ m t a, ConsoleEffect.forward m t a ∈ onConsoleMessageLib msgType text args forwardFails
        → a = args.map jsonValue)
    ∧ (∀ e ∈ onConsoleMessageSrc msgType text args true,
        e = ConsoleEffect.errorLog "Error logging console")
    ∧ (∀ e ∈ onConsoleMessageLib msgType text args true,
        e = ConsoleEffect.errorLog "Error logging console") := by
  refine ⟨?_, ?_, ?_, ?_, ?_, ?_⟩
  · cases hb : (msgType == "error" || msgType == "warning") <;>
      simp [onConsoleMessageSrc, hb, isForwardEffect]
  · simp [onConsoleMessageLib, isForwardEffect]
  · intro m t a hmem
    unfold onConsoleMessageSrc at hmem
    split_ifs at hmem <;> simp_all
  · intro m t a hmem
    unfold onConsoleMessageLib at hmem
    split_ifs at hmem <;> simp_all
  · intro e he
    unfold onConsoleMessageSrc at he
    split_ifs at he <;> simp_all
  · intro e he
    simp only [onConsoleMessageLib, if_pos] at he
    simpa using he

/-- Witness for C9: an `error` message with one numeric argument is
forwarded, with the argument resolved to its JSON value. -/
theorem c9_console_forwarding_witness :
    (onConsoleMessageSrc "error" "boom" [⟨JVal.num 3⟩] false).any isForwardEffect = true
    ∧ [JVal.num 3] = ([⟨JVal.num 3⟩] : List JSHandle).map jsonValue :=
  ⟨(c9_console_forwarding "error" "boom" [⟨JVal.num 3⟩] false).1,
   (c9_console_forwarding "error" "boom" [⟨JVal.num 3⟩] false).2.2.1
     "error" "boom" [JVal.num 3] (by decide)⟩

/-- C10: the refined variant appends the workspace/folder and payload query
parameters to the endpoint href with the separator `&`, so a href free of
`?` yields a navigation URL containing no `?` at all, while the earlier
variant always introduces the parameters with `?`. -/
theorem c10_ampersand_vs_question_mark (href ws payload : String)
    (hh : '?' ∉ href.data) (hw : '?' ∉ ws.data) (hp : '?' ∉ payload.data) :
    '?' ∉ (mkNavUrlSrc href ws payload).data
    ∧ (∃ rest : List Char, (mkNavUrlSrc href ws payload).data = href.data ++ '&' :: rest)
    ∧ (∃ rest : List Char, (mkNavUrlLib href ws payload).data = href.data ++ '?' :: rest) := by
  have lw : '?' ∉ ("&workspace=" : String).data := by decide
  have lf : '?' ∉ ("&folder=" : String).data := by decide
  have lp : '?' ∉ ("&payload=" : String).data := by decide
  refine ⟨?_, ?_, ?_⟩
  · unfold mkNavUrlSrc
    split <;> simp [String.data_append, List.mem_append, hh, hw, hp, lw, lf, lp]
  · unfold mkNavUrlSrc
    split
    · exact ⟨("workspace=" ++ ws ++ "&payload=" ++ payload).data, by
        simp only [String.data_append, List.append_assoc]
        rfl⟩
    · exact ⟨("folder=" ++ ws ++ "&payload=" ++ payload).data, by
        simp only [String.data_append, List.append_assoc]
        rfl⟩
  · unfold mkNavUrlLib
    split
    · exact ⟨("workspace=" ++ ws ++ "&payload=" ++ payload).data, by
        simp only [String.data_append, List.append_assoc]
        rfl⟩
    · exact ⟨("folder=" ++ ws ++ "&payload=" ++ payload).data, by
        simp only [String.data_append, List.append_assoc]
        rfl⟩

/-- Witness for C10 at concrete inputs: the refined variant's URL for a
query-free href contains no `?`. -/
theorem c10_ampersand_vs_question_mark_witness :
    '?' ∉ (mkNavUrlSrc "http://127.0.0.1:9999/" "/w/proj" "[]").data :=
  (c10_ampersand_vs_question_mark "http://127.0.0.1:9999/" "/w/proj" "[]"
    (by decide) (by decide) (by decide)).1

end GpTest
